import Mathlib

/-!
# Verification of the rs6000 built-in function generator

A shallow embedding of `gcc/config/rs6000/rs6000-gen-builtins.c`: the
line-oriented scanner, the type/prototype/stanza parsers for the two input
languages (built-in file and overload file), the function-type mangler, and
the table-emission loops.  A line of input is a `List Char` (the buffer
contents up to, and not including, the terminating newline that `fgets`
stores); reading at or past the end of the line yields `'\n'`, exactly as
the C buffer does.  Positions are zero-based cursors as in the C `pos`
variable.  The red-black string trees of `rbtree.h`/`rbtree.c` are not part
of the sources here and are modelled from the specification as ordered
string sets with insert-if-absent.
-/

/-- Character of the line buffer at position `p`; the terminating newline
stands for every position at or past the end of the line, as in the C
buffer filled by `fgets`. -/
def lineChar (l : List Char) (p : Nat) : Char := (l.drop p).headD '\n'

/-- C `isspace` on the ASCII characters that can occur in these files. -/
def cIsSpace (c : Char) : Bool :=
  c = ' ' || c = '\t' || c = '\n' || c = '\x0b' || c = '\x0c' || c = '\r'

/-- Characters accepted by `match_identifier`: `isalnum` or underscore. -/
def isIdentChar (c : Char) : Bool := c.isAlphanum || c = '_'

/-- Loop body of `consume_whitespace`: the number of leading whitespace
characters before the terminating newline of the remaining buffer. -/
def wsCount : List Char → Nat
  | [] => 0
  | c :: cs => if cIsSpace c && c != '\n' then wsCount cs + 1 else 0

/-- `consume_whitespace`: advance over whitespace, never past end of line. -/
def consume_whitespace (l : List Char) (p : Nat) : Nat := p + wsCount (l.drop p)

/-- Loop body of `match_identifier`: the maximal leading run of identifier
characters of the remaining buffer. -/
def identRunAux : List Char → List Char
  | [] => []
  | c :: cs => if isIdentChar c then c :: identRunAux cs else []

/-- Maximal run of identifier characters starting at `p` (the scan of
`match_identifier`). -/
def identRun (l : List Char) (p : Nat) : List Char := identRunAux (l.drop p)

/-- Loop body of `match_integer`: the maximal leading run of decimal digits
of the remaining buffer. -/
def digitRunAux : List Char → List Char
  | [] => []
  | c :: cs => if c.isDigit then c :: digitRunAux cs else []

/-- Maximal run of decimal digits starting at `p` (the scan of
`match_integer`). -/
def digitRun (l : List Char) (p : Nat) : List Char := digitRunAux (l.drop p)

/-- `match_identifier`: the consumed identifier (`none` when no identifier
character is present) together with the updated cursor. -/
def match_identifier (l : List Char) (p : Nat) : Option String × Nat :=
  let run := identRun l p
  if run = [] then (none, p) else (some (String.mk run), p + run.length)

/-- `match_integer`: optional `-` sign followed by a digit run; `none` when
no digits follow (the C code signals this with the `MININT` sentinel).  The
value is the exact integer; the C `int` overflow of absurdly long literals
is outside the inputs this tool sees. -/
def match_integer (l : List Char) (p : Nat) : Option Int × Nat :=
  let neg := lineChar l p = '-'
  let p1 := if neg then p + 1 else p
  let ds := digitRun l p1
  if ds = [] then (none, p1)
  else
    let n : Nat := ds.foldl (fun acc c => 10 * acc + (c.toNat - '0'.toNat)) 0
    (some (if neg then -(n : Int) else (n : Int)), p1 + ds.length)

/-- Legal base types for an argument or return type (`enum basetype`). -/
inductive basetype where
  | BT_CHAR
  | BT_SHORT
  | BT_INT
  | BT_LONGLONG
  | BT_FLOAT
  | BT_DOUBLE
  | BT_INT128
  | BT_FLOAT128
deriving DecidableEq

/-- Ways in which a const int value can be restricted (`enum restriction`). -/
inductive restriction where
  | RES_NONE
  | RES_BITS
  | RES_RANGE
  | RES_VAR_RANGE
  | RES_VALUES
deriving DecidableEq

/-- Function purity modifiers (`enum fnkinds`). -/
inductive fnkinds where
  | FNK_NONE
  | FNK_CONST
  | FNK_PURE
  | FNK_FPMATH
deriving DecidableEq

/-- Type modifiers for an argument or return type (`struct typeinfo`); the
defaults are the `memset` to zero performed by `match_type`.  The C field
`isopaque` is spelled `isopaq` here. -/
structure typeinfo where
  isvoid : Bool := false
  isconst : Bool := false
  isvector : Bool := false
  issigned : Bool := false
  isunsigned : Bool := false
  isbool : Bool := false
  ispixel : Bool := false
  ispointer : Bool := false
  isopaq : Bool := false
  base : basetype := .BT_CHAR
  restr : restriction := .RES_NONE
  val1 : Int := 0
  val2 : Int := 0
deriving DecidableEq

/-- `handle_pointer`: optionally consume a `*` token. -/
def handle_pointer (t : typeinfo) (l : List Char) (p : Nat) : typeinfo × Nat :=
  let p := consume_whitespace l p
  if lineChar l p = '*' then ({ t with ispointer := true }, p + 1) else (t, p)

/-- `match_basetype`: one of the scalar base-type keywords, `long` requiring
a second `long`, with an optional trailing `*`. -/
def match_basetype (t : typeinfo) (l : List Char) (p : Nat) :
    Option (typeinfo × Nat) :=
  let p := consume_whitespace l p
  match match_identifier l p with
  | (none, _) => none
  | (some tok, p1) =>
    if tok = "char" then some (handle_pointer { t with base := .BT_CHAR } l p1)
    else if tok = "short" then some (handle_pointer { t with base := .BT_SHORT } l p1)
    else if tok = "int" then some (handle_pointer { t with base := .BT_INT } l p1)
    else if tok = "long" then
      let p2 := consume_whitespace l p1
      match match_identifier l p2 with
      | (none, _) => none
      | (some tok2, p3) =>
        if tok2 = "long" then
          some (handle_pointer { t with base := .BT_LONGLONG } l p3)
        else none
    else if tok = "float" then some (handle_pointer { t with base := .BT_FLOAT } l p1)
    else if tok = "double" then some (handle_pointer { t with base := .BT_DOUBLE } l p1)
    else if tok = "__int128" then some (handle_pointer { t with base := .BT_INT128 } l p1)
    else if tok = "_Float128" then some (handle_pointer { t with base := .BT_FLOAT128 } l p1)
    else none

/-- `match_const_restriction`: the `<x>`, `<x,y>`, `{x,y}` and `[x,y]`
suffixes of a `const int` argument.  The `{x,y}` branch of the source checks
for the comma but never steps the cursor past it before reading `y`; the
embedding preserves that.  The final branch carries the source's
`assert (linebuf[pos] == '[')`; a call with any other character is the
assertion failure, modelled as `none`. -/
def match_const_restriction (t : typeinfo) (l : List Char) (p : Nat) :
    Option (typeinfo × Nat) :=
  if lineChar l p = '<' then
    let p := p + 1
    match match_integer l p with
    | (none, _) => none
    | (some x, p) =>
      let p := consume_whitespace l p
      if lineChar l p = '>' then
        some ({ t with restr := .RES_BITS, val1 := x }, p + 1)
      else if lineChar l p ≠ ',' then none
      else
        let p := p + 1
        match match_integer l p with
        | (none, _) => none
        | (some y, p) =>
          let t := { t with restr := .RES_RANGE, val1 := x, val2 := y }
          let p := consume_whitespace l p
          if lineChar l p ≠ '>' then none else some (t, p + 1)
  else if lineChar l p = '{' then
    let p := p + 1
    match match_integer l p with
    | (none, _) => none
    | (some x, p) =>
      let p := consume_whitespace l p
      if lineChar l p ≠ ',' then none
      else
        let p := consume_whitespace l p
        match match_integer l p with
        | (none, _) => none
        | (some y, p) =>
          let t := { t with restr := .RES_VALUES, val1 := x, val2 := y }
          let p := consume_whitespace l p
          if lineChar l p ≠ '}' then none else some (t, p + 1)
  else if lineChar l p = '[' then
    let p := p + 1
    match match_integer l p with
    | (none, _) => none
    | (some x, p) =>
      let p := consume_whitespace l p
      if lineChar l p ≠ ',' then none
      else
        let p := consume_whitespace l (p + 1)
        match match_integer l p with
        | (none, _) => none
        | (some y, p) =>
          let t := { t with restr := .RES_VAR_RANGE, val1 := x, val2 := y }
          let p := consume_whitespace l p
          if lineChar l p ≠ ']' then none else some (t, p + 1)
  else none

/-- Tail of `match_type` once `const [signed|unsigned] int` has been
recognised: record `BT_INT` and look for a restriction suffix.  The source
dispatches to `match_const_restriction` only on `<` and `{`; a `[` suffix is
left unconsumed. -/
def match_type_const_tail (t : typeinfo) (l : List Char) (p : Nat) :
    Option (typeinfo × Nat) :=
  let t := { t with base := basetype.BT_INT }
  let p := consume_whitespace l p
  if lineChar l p = '<' ∨ lineChar l p = '{' then match_const_restriction t l p
  else some (t, p)

/-- `match_type`: `[const] [[signed|unsigned] <basetype> | <vectype>] [*]`,
with `void` legal only when `voidok` (and always legal as `void *`).  Where
the source would pass a null token to `strcmp` (no identifier after
`const`), the embedding fails instead. -/
def match_type (voidok : Bool) (l : List Char) (p : Nat) :
    Option (typeinfo × Nat) :=
  let p := consume_whitespace l p
  let t0 : typeinfo := {}
  let oldpos := p
  match match_identifier l p with
  | (none, _) => none
  | (some tok, p) =>
    let t1 := if tok = "void" then { t0 with isvoid := true } else t0
    if tok = "vsc" then
      some (handle_pointer { t1 with isvector := true, issigned := true, base := .BT_CHAR } l p)
    else if tok = "vuc" then
      some (handle_pointer { t1 with isvector := true, isunsigned := true, base := .BT_CHAR } l p)
    else if tok = "vbc" then
      some (handle_pointer { t1 with isvector := true, isbool := true, base := .BT_CHAR } l p)
    else if tok = "vss" then
      some (handle_pointer { t1 with isvector := true, issigned := true, base := .BT_SHORT } l p)
    else if tok = "vus" then
      some (handle_pointer { t1 with isvector := true, isunsigned := true, base := .BT_SHORT } l p)
    else if tok = "vbs" then
      some (handle_pointer { t1 with isvector := true, isbool := true, base := .BT_SHORT } l p)
    else if tok = "vsi" then
      some (handle_pointer { t1 with isvector := true, issigned := true, base := .BT_INT } l p)
    else if tok = "vui" then
      some (handle_pointer { t1 with isvector := true, isunsigned := true, base := .BT_INT } l p)
    else if tok = "vbi" then
      some (handle_pointer { t1 with isvector := true, isbool := true, base := .BT_INT } l p)
    else if tok = "vsll" then
      some (handle_pointer { t1 with isvector := true, issigned := true, base := .BT_LONGLONG } l p)
    else if tok = "vull" then
      some (handle_pointer { t1 with isvector := true, isunsigned := true, base := .BT_LONGLONG } l p)
    else if tok = "vbll" then
      some (handle_pointer { t1 with isvector := true, isbool := true, base := .BT_LONGLONG } l p)
    else if tok = "vsq" then
      some (handle_pointer { t1 with isvector := true, issigned := true, base := .BT_INT128 } l p)
    else if tok = "vuq" then
      some (handle_pointer { t1 with isvector := true, isunsigned := true, base := .BT_INT128 } l p)
    else if tok = "vbq" then
      some (handle_pointer { t1 with isvector := true, isbool := true, base := .BT_INT128 } l p)
    else if tok = "vp" then
      some (handle_pointer { t1 with isvector := true, ispixel := true, base := .BT_SHORT } l p)
    else if tok = "vf" then
      some (handle_pointer { t1 with isvector := true, base := .BT_FLOAT } l p)
    else if tok = "vd" then
      some (handle_pointer { t1 with isvector := true, base := .BT_DOUBLE } l p)
    else if tok = "vop" then
      some ({ t1 with isopaq := true }, p)
    else
      let t2 := if tok = "const" then { t1 with isconst := true }
        else if tok = "signed" then { t1 with issigned := true }
        else if tok = "unsigned" then { t1 with isunsigned := true }
        else t1
      if tok ≠ "void" ∧ tok ≠ "const" ∧ tok ≠ "signed" ∧ tok ≠ "unsigned" then
        match_basetype t2 l oldpos
      else if t2.isvoid then
        let p := consume_whitespace l p
        if lineChar l p = '*' then some ({ t2 with ispointer := true }, p + 1)
        else if !voidok then none
        else some (t2, p)
      else if t2.isconst then
        let p := consume_whitespace l p
        match match_identifier l p with
        | (none, _) => none
        | (some tok2, p) =>
          if tok2 = "signed" then
            let t3 := { t2 with issigned := true }
            let p := consume_whitespace l p
            match match_identifier l p with
            | (none, _) => none
            | (some tok3, p) =>
              if tok3 ≠ "int" then none else match_type_const_tail t3 l p
          else if tok2 = "unsigned" then
            let t3 := { t2 with isunsigned := true }
            let p := consume_whitespace l p
            match match_identifier l p with
            | (none, _) => none
            | (some tok3, p) =>
              if tok3 ≠ "int" then none else match_type_const_tail t3 l p
          else if tok2 ≠ "int" then none
          else match_type_const_tail t2 l p
      else
        let p := consume_whitespace l p
        match_basetype t2 l p

/-- Fields associated with a function prototype (`struct prototype`). -/
structure prototype where
  rettype : typeinfo := {}
  bifname : String := ""
  nargs : Nat := 0
  args : List typeinfo := []
  restr_opnd : Nat := 0
  restr : restriction := .RES_NONE
  restr_val1 : Int := 0
  restr_val2 : Int := 0
deriving DecidableEq

/-- One step of the `do … while (success)` loop of `parse_args`.  Each
successful `match_type` consumes at least one character, so the loop runs at
most `length + 2` times; the fuel passed by `parse_args` makes that bound
explicit. -/
def parse_args_loop (l : List Char) (fuel : Nat) (proto : prototype) (p : Nat) :
    Option (prototype × Nat) :=
  match fuel with
  | 0 => none
  | fuel + 1 =>
    let p0 := consume_whitespace l p
    match match_type false l p0 with
    | some (argtype, p1) =>
      if argtype.restr ≠ .RES_NONE ∧ proto.restr_opnd ≠ 0 then none
      else
        let proto :=
          if argtype.restr ≠ .RES_NONE then
            { proto with restr_opnd := proto.nargs + 1, restr := argtype.restr,
                         restr_val1 := argtype.val1, restr_val2 := argtype.val2 }
          else proto
        let proto := { proto with nargs := proto.nargs + 1,
                                  args := proto.args ++ [argtype] }
        let p2 := consume_whitespace l p1
        if lineChar l p2 = ',' then parse_args_loop l fuel proto (p2 + 1)
        else if lineChar l p2 ≠ ')' then none
        else parse_args_loop l fuel proto p2
    | none =>
      if lineChar l p0 ≠ ')' then none
      else some (proto, p0 + 1)

/-- `parse_args`: the parenthesised, comma-separated argument list.  At most
one argument may carry a restriction (`More than one restricted operand`). -/
def parse_args (l : List Char) (proto : prototype) (p : Nat) :
    Option (prototype × Nat) :=
  let p := consume_whitespace l p
  if lineChar l p ≠ '(' then none
  else parse_args_loop l (l.length + 2) proto (p + 1)

/-- `parse_prototype`: return type (void allowed), function name, argument
list, terminating semicolon, end of line. -/
def parse_prototype (l : List Char) (p : Nat) : Option (prototype × Nat) :=
  let p := consume_whitespace l p
  match match_type true l p with
  | none => none
  | some (ret, p) =>
    let p := consume_whitespace l p
    match match_identifier l p with
    | (none, _) => none
    | (some name, p) =>
      match parse_args l { rettype := ret, bifname := name } p with
      | none => none
      | some (proto, p) =>
        let p := consume_whitespace l p
        if lineChar l p ≠ ';' then none
        else
          let p := consume_whitespace l (p + 1)
          if lineChar l p ≠ '\n' then none
          else some (proto, p)

/-- Attributes of a builtin function (`struct attrinfo`). -/
structure attrinfo where
  isinit : Bool := false
  isset : Bool := false
  isextract : Bool := false
  isnosoft : Bool := false
  isldvec : Bool := false
  isstvec : Bool := false
  isreve : Bool := false
  ispred : Bool := false
  ishtm : Bool := false
  ishtmspr : Bool := false
  ishtmcr : Bool := false
  isno32bit : Bool := false
  iscpu : Bool := false
  isldstmask : Bool := false
deriving DecidableEq

/-- Set the flag for one attribute token; `none` for a token outside the
closed vocabulary (`unknown attribute`). -/
def set_attr (a : attrinfo) (tok : String) : Option attrinfo :=
  if tok = "init" then some { a with isinit := true }
  else if tok = "set" then some { a with isset := true }
  else if tok = "extract" then some { a with isextract := true }
  else if tok = "nosoft" then some { a with isnosoft := true }
  else if tok = "ldvec" then some { a with isldvec := true }
  else if tok = "stvec" then some { a with isstvec := true }
  else if tok = "reve" then some { a with isreve := true }
  else if tok = "pred" then some { a with ispred := true }
  else if tok = "htm" then some { a with ishtm := true }
  else if tok = "htmspr" then some { a with ishtmspr := true }
  else if tok = "htmcr" then some { a with ishtmcr := true }
  else if tok = "no32bit" then some { a with isno32bit := true }
  else if tok = "cpu" then some { a with iscpu := true }
  else if tok = "ldstmask" then some { a with isldstmask := true }
  else none

/-- The `do … while (attrname)` loop of `parse_bif_attrs`. -/
def parse_bif_attrs_loop (l : List Char) (fuel : Nat) (a : attrinfo) (p : Nat) :
    Option (attrinfo × Nat) :=
  match fuel with
  | 0 => none
  | fuel + 1 =>
    let p0 := consume_whitespace l p
    match match_identifier l p0 with
    | (some tok, p1) =>
      match set_attr a tok with
      | none => none
      | some a =>
        let p2 := consume_whitespace l p1
        if lineChar l p2 = ',' then parse_bif_attrs_loop l fuel a (p2 + 1)
        else if lineChar l p2 ≠ '}' then none
        else parse_bif_attrs_loop l fuel a p2
    | (none, _) =>
      if lineChar l p0 ≠ '}' then none
      else some (a, p0 + 1)

/-- `parse_bif_attrs`: the brace-delimited attribute list. -/
def parse_bif_attrs (l : List Char) (p : Nat) : Option (attrinfo × Nat) :=
  let p := consume_whitespace l p
  if lineChar l p ≠ '{' then none
  else parse_bif_attrs_loop l (l.length + 2) {} (p + 1)

/-- `complete_vector_type`: mode string of a vector type. -/
def complete_vector_type (t : typeinfo) : String :=
  (if t.isbool then "b" else "") ++ "v" ++
    (if t.ispixel then "p8hi"
     else
       match t.base with
       | .BT_CHAR => "16qi"
       | .BT_SHORT => "8hi"
       | .BT_INT => "4si"
       | .BT_LONGLONG => "2di"
       | .BT_FLOAT => "4sf"
       | .BT_DOUBLE => "2df"
       | .BT_INT128 => "1ti"
       | .BT_FLOAT128 => "1tf")

/-- `complete_base_type`: mode string of a scalar base type. -/
def complete_base_type (t : typeinfo) : String :=
  match t.base with
  | .BT_CHAR => "qi"
  | .BT_SHORT => "hi"
  | .BT_INT => "si"
  | .BT_LONGLONG => "di"
  | .BT_FLOAT => "sf"
  | .BT_DOUBLE => "df"
  | .BT_INT128 => "ti"
  | .BT_FLOAT128 => "tf"

/-- Return-type fragment of `construct_fntype_id` (the source asserts that a
pointer return type is a void pointer). -/
def ret_fragment (t : typeinfo) : String :=
  (if t.ispointer then "p" else "") ++
    (if t.isvoid then "v"
     else if t.isopaq then "opaque"
     else
       (if t.isunsigned then "u" else "") ++
         (if t.isvector then complete_vector_type t else complete_base_type t))

/-- Argument fragment of `construct_fntype_id`, with its leading underscore;
every pointer argument mangles to the generic `pv` fragment. -/
def arg_fragment (t : typeinfo) : String :=
  "_" ++
    (if t.ispointer then "pv"
     else if t.isopaq then "opaque"
     else
       (if t.isunsigned then "u" else "") ++
         (if t.isvector then complete_vector_type t else complete_base_type t))

/-- `construct_fntype_id`: the mangled function type descriptor identifier.
In the source this function also inserts the identifier into the function
type registry; the call sites below perform that insertion. -/
def construct_fntype_id (protoptr : prototype) : String :=
  ret_fragment protoptr.rettype ++ "_ftype" ++
    (if protoptr.nargs = 0 then "_v"
     else String.join (protoptr.args.map arg_fragment))

/-- `strcmp`-style strict ordering on character lists (by code point). -/
def charListLt : List Char → List Char → Bool
  | [], [] => false
  | [], _ :: _ => true
  | _ :: _, [] => false
  | a :: as, b :: bs =>
    if a.toNat < b.toNat then true
    else if b.toNat < a.toNat then false
    else charListLt as bs

/-- `strcmp`-style strict ordering on strings. -/
def strLt (a b : String) : Bool := charListLt a.data b.data

/-- Insert a string into a sorted list, keeping it sorted. -/
def insertOrdered (x : String) : List String → List String
  | [] => [x]
  | y :: ys => if strLt x y then x :: y :: ys else y :: insertOrdered x ys

/-- Modelled from the spec: the red-black string trees of `rbtree.h` /
`rbtree.c` are not among the sources; §3 and §9 of the specification
describe them as uniqueness-checked string sets with insert-if-absent and
deterministic in-order iteration.  A tree is modelled as the sorted list of
its strings; `rbt_insert` reports whether the string was new. -/
def rbt_insert (t : List String) (x : String) : Bool × List String :=
  if x ∈ t then (false, t) else (true, insertOrdered x t)

/-- Modelled from the spec: membership in a registry (`rbt_find`). -/
def rbt_find (t : List String) (x : String) : Bool := x ∈ t

/-- `advance_line`: the next nonblank, noncomment line, with the remaining
lines; `none` at end of file. -/
def advance_line : List (List Char) → Option (List Char × List (List Char))
  | [] => none
  | l :: rest =>
    let p := consume_whitespace l 0
    if lineChar l p = '\n' ∨ lineChar l p = ';' then advance_line rest
    else some (l, rest)

def LINELEN : Nat := 1024
def MAXBIFSTANZAS : Nat := 256
def MAXBIFS : Nat := 16384
def MAXOVLDSTANZAS : Nat := 256
def MAXOVLDS : Nat := 16384

/-- Data associated with a builtin function (`struct bifdata`). -/
structure bifdata where
  stanza : Nat := 0
  kind : fnkinds := .FNK_NONE
  proto : prototype := {}
  idname : String := ""
  patname : String := ""
  attrs : attrinfo := {}
  fndecl : String := ""
deriving DecidableEq

/-- Parser state for the built-in file: remaining lines plus the global
tables and registries the source keeps in statics. -/
structure BifSt where
  lines : List (List Char)
  bif_stanzas : List String := []
  curr_bif_stanza : Nat := 0
  bifs : List bifdata := []
  curr_bif : Nat := 0
  bif_rbt : List String := []
  fntype_rbt : List String := []
deriving DecidableEq

/-- First line of a builtin entry: optional `const`/`pure`/`fpmath`
modifier, then a prototype (an unrecognised first token is pushed back). -/
def parse_bif_line1 (lb : List Char) (p : Nat) : Option (fnkinds × prototype) :=
  let p := consume_whitespace lb p
  match match_identifier lb p with
  | (none, _) => none
  | (some tok, p1) =>
    if tok = "const" then (parse_prototype lb p1).map (fun r => (.FNK_CONST, r.1))
    else if tok = "pure" then (parse_prototype lb p1).map (fun r => (.FNK_PURE, r.1))
    else if tok = "fpmath" then (parse_prototype lb p1).map (fun r => (.FNK_FPMATH, r.1))
    else (parse_prototype lb p).map (fun r => (.FNK_NONE, r.1))

/-- Result of `parse_bif_entry`: codes 1 (`ok`), 2 (`stanzaEnd`) and
5 (`err`) of the source. -/
inductive BifEntryRes where
  | ok (st : BifSt)
  | stanzaEnd
  | err
deriving DecidableEq

/-- `parse_bif_entry`: two-line entry — prototype line, then
`<bif-id> <bif-pattern> {<attribute-list>}`.  The builtin id must be new in
the builtin registry; the mangled type id is inserted into the function type
registry. -/
def parse_bif_entry (lb : List Char) (st : BifSt) : BifEntryRes :=
  let p := consume_whitespace lb 0
  if lineChar lb p = '[' then .stanzaEnd
  else if MAXBIFS - 1 ≤ st.bifs.length then .err
  else
    let curr := st.bifs.length
    match parse_bif_line1 lb p with
    | none => .err
    | some (kind, proto) =>
      let fndecl := construct_fntype_id proto
      let ft := (rbt_insert st.fntype_rbt fndecl).2
      match advance_line st.lines with
      | none => .err
      | some (lb2, rest) =>
        let q := consume_whitespace lb2 0
        match match_identifier lb2 q with
        | (none, _) => .err
        | (some idname, q1) =>
          match rbt_insert st.bif_rbt idname with
          | (false, _) => .err
          | (true, rbt2) =>
            let q2 := consume_whitespace lb2 q1
            match match_identifier lb2 q2 with
            | (none, _) => .err
            | (some patname, q3) =>
              match parse_bif_attrs lb2 q3 with
              | none => .err
              | some (attrs, _) =>
                .ok { st with
                      lines := rest,
                      bifs := st.bifs ++
                        [{ stanza := st.curr_bif_stanza, kind := kind,
                           proto := proto, idname := idname,
                           patname := patname, attrs := attrs,
                           fndecl := fndecl }],
                      curr_bif := curr,
                      bif_rbt := rbt2,
                      fntype_rbt := ft }

/-- Result of `parse_bif_stanza`: codes 1 (`ok`, next stanza header in
`lb`), 0 (`eof`) and 5 (`err`) of the source. -/
inductive BifStanzaRes where
  | ok (st : BifSt) (lb : List Char)
  | eof (st : BifSt)
  | err
deriving DecidableEq

/-- Entry loop of `parse_bif_stanza`.  Every iteration consumes at least one
line, so `lines.length + 1` fuel is sufficient. -/
def bif_stanza_loop (fuel : Nat) (st : BifSt) : BifStanzaRes :=
  match fuel with
  | 0 => .err
  | fuel + 1 =>
    match advance_line st.lines with
    | none => .eof st
    | some (lb, rest) =>
      let st := { st with lines := rest }
      match parse_bif_entry lb st with
      | .ok st2 => bif_stanza_loop fuel st2
      | .stanzaEnd => .ok st lb
      | .err => .err

/-- `parse_bif_stanza`: stanza header `[<identifier>]` (any identifier is
recorded verbatim — there is no gating vocabulary in the source), then
entries until a line begins with `[` or end of file. -/
def parse_bif_stanza (lb : List Char) (st : BifSt) : BifStanzaRes :=
  let p := consume_whitespace lb 0
  if lineChar lb p ≠ '[' then .err
  else
    let p := p + 1
    match match_identifier lb p with
    | (none, _) => .err
    | (some stanza_name, p) =>
      if MAXBIFSTANZAS ≤ st.bif_stanzas.length then .err
      else
        let st := { st with curr_bif_stanza := st.bif_stanzas.length,
                            bif_stanzas := st.bif_stanzas ++ [stanza_name] }
        if lineChar lb p ≠ ']' then .err
        else
          let p := consume_whitespace lb (p + 1)
          if lineChar lb p ≠ '\n' ∧ p ≠ LINELEN - 1 then .err
          else bif_stanza_loop (st.lines.length + 1) st

/-- Stanza loop of `parse_bif`.  Each completed stanza consumes at least one
line, so `lines.length + 1` fuel is sufficient. -/
def parse_bif_loop (fuel : Nat) (lb : List Char) (st : BifSt) : Option BifSt :=
  match fuel with
  | 0 => none
  | fuel + 1 =>
    match parse_bif_stanza lb st with
    | .ok st2 lb2 => parse_bif_loop fuel lb2 st2
    | .eof st2 => some st2
    | .err => none

/-- `parse_bif`: parse the whole built-in file; `none` is the
`ParseFailure(builtin)` exit. -/
def parse_bif (lines : List (List Char)) : Option BifSt :=
  match advance_line lines with
  | none => some { lines := [] }
  | some (lb, rest) => parse_bif_loop (lines.length + 1) lb { lines := rest }

/-- One stanza header of the overload file (`struct ovld_stanza`). -/
structure ovld_stanza where
  stanza_id : String := ""
  extern_name : String := ""
  intern_name : String := ""
deriving DecidableEq

/-- Data associated with an overload instance (`struct ovlddata`). -/
structure ovlddata where
  stanza : Nat := 0
  proto : prototype := {}
  idname : String := ""
  fndecl : String := ""
deriving DecidableEq

/-- Parser state for the overload file.  `bif_rbt` is the builtin id
registry produced by the completed builtin pass, read here for referential
integrity checks; `fntype_rbt` continues to grow. -/
structure OvldSt where
  lines : List (List Char)
  ovld_stanzas : List ovld_stanza := []
  curr_ovld_stanza : Nat := 0
  ovlds : List ovlddata := []
  curr_ovld : Nat := 0
  ovld_rbt : List String := []
  fntype_rbt : List String := []
  bif_rbt : List String := []
deriving DecidableEq

/-- Result of `parse_ovld_entry`: codes 1 (`ok`), 2 (`stanzaEnd`),
0 (`eofSig`) and 6 (`err`) of the source.  At end of file after a prototype
line the source prints `unexpected EOF` but returns the EOF code 0, not 6;
`eofSig` carries the state because the half-parsed entry has already been
stored in the overload table and the function type registry. -/
inductive OvldEntryRes where
  | ok (st : OvldSt)
  | stanzaEnd
  | eofSig (st : OvldSt)
  | err
deriving DecidableEq

/-- `parse_ovld_entry`: two-line entry — prototype line, then a bare builtin
id that must already be in the builtin registry and must be new in the
overload registry. -/
def parse_ovld_entry (lb : List Char) (st : OvldSt) : OvldEntryRes :=
  let p := consume_whitespace lb 0
  if lineChar lb p = '[' then .stanzaEnd
  else if MAXOVLDS - 1 ≤ st.ovlds.length then .err
  else
    let curr := st.ovlds.length
    match parse_prototype lb p with
    | none => .err
    | some (proto, _) =>
      let fndecl := construct_fntype_id proto
      let ft := (rbt_insert st.fntype_rbt fndecl).2
      let st1 := { st with
                   ovlds := st.ovlds ++
                     [({ stanza := st.curr_ovld_stanza, proto := proto,
                         idname := "", fndecl := fndecl } : ovlddata)],
                   curr_ovld := curr,
                   fntype_rbt := ft }
      match advance_line st.lines with
      | none => .eofSig { st1 with lines := [] }
      | some (lb2, rest) =>
        let q := consume_whitespace lb2 0
        match match_identifier lb2 q with
        | (none, _) => .err
        | (some id, q1) =>
          if rbt_find st.bif_rbt id = false then .err
          else
            match rbt_insert st.ovld_rbt id with
            | (false, _) => .err
            | (true, orbt) =>
              let q2 := consume_whitespace lb2 q1
              if lineChar lb2 q2 ≠ '\n' then .err
              else
                .ok { st1 with
                      lines := rest,
                      ovlds := st.ovlds ++
                        [({ stanza := st.curr_ovld_stanza, proto := proto,
                            idname := id, fndecl := fndecl } : ovlddata)],
                      ovld_rbt := orbt }

/-- Result of `parse_ovld_stanza`: only codes 0 (`eof`) and 6 (`err`).  The
entry loop of the source declares an inner `result` variable that shadows
the loop's own, so the `while (result != 2)` condition never observes the
end-of-stanza code: the loop can only leave through EOF or an error, and a
line beginning with `[` is simply dropped. -/
inductive OvldStanzaRes where
  | eof (st : OvldSt)
  | err
deriving DecidableEq

/-- Entry loop of `parse_ovld_stanza`, with the shadowed `result`: on
`stanzaEnd` the header line in `lb` is discarded and scanning continues on
the following line under the current stanza. -/
def ovld_stanza_loop (fuel : Nat) (st : OvldSt) : OvldStanzaRes :=
  match fuel with
  | 0 => .err
  | fuel + 1 =>
    match advance_line st.lines with
    | none => .eof st
    | some (lb, rest) =>
      let st := { st with lines := rest }
      match parse_ovld_entry lb st with
      | .eofSig st2 => .eof st2
      | .err => .err
      | .ok st2 => ovld_stanza_loop fuel st2
      | .stanzaEnd => ovld_stanza_loop fuel st

/-- `parse_ovld_stanza`: header `[<overload-id>, <abi-name>, <builtin-name>]`
followed by the entry loop. -/
def parse_ovld_stanza (lb : List Char) (st : OvldSt) : OvldStanzaRes :=
  let p := consume_whitespace lb 0
  if lineChar lb p ≠ '[' then .err
  else
    let p := p + 1
    match match_identifier lb p with
    | (none, _) => .err
    | (some sid, p) =>
      if MAXOVLDSTANZAS ≤ st.ovld_stanzas.length then .err
      else
        let idx := st.ovld_stanzas.length
        let p := consume_whitespace lb p
        if lineChar lb p ≠ ',' then .err
        else
          let p := consume_whitespace lb (p + 1)
          match match_identifier lb p with
          | (none, _) => .err
          | (some ext, p) =>
            let p := consume_whitespace lb p
            if lineChar lb p ≠ ',' then .err
            else
              let p := consume_whitespace lb (p + 1)
              match match_identifier lb p with
              | (none, _) => .err
              | (some intn, p) =>
                if lineChar lb p ≠ ']' then .err
                else
                  let p := consume_whitespace lb (p + 1)
                  if lineChar lb p ≠ '\n' ∧ p ≠ LINELEN - 1 then .err
                  else
                    let st := { st with
                                curr_ovld_stanza := idx,
                                ovld_stanzas := st.ovld_stanzas ++
                                  [{ stanza_id := sid, extern_name := ext,
                                     intern_name := intn }] }
                    ovld_stanza_loop (st.lines.length + 1) st

/-- `parse_ovld`: parse the whole overload file; `none` is the
`ParseFailure(overload)` exit.  The source's outer loop would iterate on
code 1, but `parse_ovld_stanza` never produces it, so one call decides the
file. -/
def parse_ovld (lines : List (List Char)) (bif_rbt fntype_rbt : List String) :
    Option OvldSt :=
  let st : OvldSt := { lines := lines, bif_rbt := bif_rbt,
                       fntype_rbt := fntype_rbt }
  match advance_line lines with
  | none => some { st with lines := [] }
  | some (lb, rest) =>
    match parse_ovld_stanza lb { st with lines := rest } with
    | .eof st2 => some st2
    | .err => none

/-- `write_init_bif_table`: the loop `for (i = 0; i <= curr_bif; i++)` that
emits one initializer block per index; a block is abstracted by the builtin
id it names.  `curr_bif` is the static counter, still 0 when no entry was
ever allocated, in which case the loop still runs once and reads the
uninitialized slot 0 (modelled by the default `bifdata`). -/
def write_init_bif_table (curr_bif : Nat) (bifs : List bifdata) : List String :=
  (List.range (curr_bif + 1)).map (fun i => (bifs.getD i {}).idname)

/-- `write_init_ovld_table`: the loop `for (i = 0; i <= curr_ovld; i++)`,
abstracted like `write_init_bif_table`. -/
def write_init_ovld_table (curr_ovld : Nat) (ovlds : List ovlddata) :
    List String :=
  (List.range (curr_ovld + 1)).map (fun i => (ovlds.getD i {}).idname)

/-- `write_defines_file`: one `#define <extern> <intern>` line per overload
stanza, `for (i = 0; i < num_ovld_stanzas; i++)`. -/
def write_defines_file (stanzas : List ovld_stanza) : List (String × String) :=
  stanzas.map (fun s => (s.extern_name, s.intern_name))

/-- The generated initialization and defines artifacts, abstracted to the
shapes the claims speak about. -/
structure GenOut where
  bif_table_blocks : List String
  ovld_table_blocks : List String
  defines_lines : List (String × String)
deriving DecidableEq

/-- Outcome of `main` after the two parse phases: success with the final
states and generated shapes, or the `EC_PARSEBIF` / `EC_PARSEOVLD` exits. -/
inductive MainRes where
  | ok (bst : BifSt) (ost : OvldSt) (gen : GenOut)
  | parseBifErr
  | parseOvldErr
deriving DecidableEq

/-- The `main` pipeline on already-opened inputs: parse the builtin file,
then the overload file against the builtin registry, then emit the table
initializers and defines. -/
def rs6000_main (bif_lines ovld_lines : List (List Char)) : MainRes :=
  match parse_bif bif_lines with
  | none => .parseBifErr
  | some bst =>
    match parse_ovld ovld_lines bst.bif_rbt bst.fntype_rbt with
    | none => .parseOvldErr
    | some ost =>
      .ok bst ost
        { bif_table_blocks := write_init_bif_table bst.curr_bif bst.bifs,
          ovld_table_blocks := write_init_ovld_table ost.curr_ovld ost.ovlds,
          defines_lines := write_defines_file ost.ovld_stanzas }

/-- Projection used in concrete runs: the overload state of a successful
run. -/
def main_ovld_state : MainRes → Option OvldSt
  | .ok _ ost _ => some ost
  | _ => none

/-- Projection used in concrete runs: the builtin state of a successful
run. -/
def main_bif_state : MainRes → Option BifSt
  | .ok bst _ _ => some bst
  | _ => none

/-- Projection used in concrete runs: the generated output shapes of a
successful run. -/
def main_gen_out : MainRes → Option GenOut
  | .ok _ _ gen => some gen
  | _ => none

/-- Whether an overload entry parse was accepted (code 1). -/
def OvldEntryRes.isOk : OvldEntryRes → Bool
  | .ok _ => true
  | _ => false

/-- Convert a list of line strings into the scanner's line lists. -/
def mkLines (ss : List String) : List (List Char) := ss.map String.data

/-- Builtin file used in concrete runs: one stanza, two entries. -/
def c2_bif : List (List Char) := mkLines [
  "[TARGET_ALTIVEC]",
  "  const vsc __builtin_altivec_abs_v16qi (vsc);",
  "    ABS_V16QI absv16qi2 {}",
  "  const vss __builtin_altivec_abs_v8hi (vss);",
  "    ABS_V8HI absv8hi2 {}"]

/-- Overload file with two stanzas of one entry each, both ids registered by
`c2_bif`. -/
def c2_ovld : List (List Char) := mkLines [
  "[VEC_ABS, vec_abs, __builtin_vec_abs]",
  "  vsc __builtin_vec_abs (vsc);",
  "    ABS_V16QI",
  "[VEC_ABSB, vec_absb, __builtin_vec_absb]",
  "  vss __builtin_vec_abs (vss);",
  "    ABS_V8HI"]

/-- Builtin file that ends after a prototype line, before the entry's
second line. -/
def c3_bif_eof : List (List Char) := mkLines [
  "[TARGET_ALTIVEC]",
  "  const vsc __builtin_altivec_abs_v16qi (vsc);"]

/-- Overload file that ends after a prototype line, before the entry's
second line. -/
def c3_ovld_eof : List (List Char) := mkLines [
  "[VEC_ABS, vec_abs, __builtin_vec_abs]",
  "  vsc __builtin_vec_abs (vsc);"]

/-- Builtin file whose stanza header token lies outside every gating
vocabulary. -/
def c7_bif : List (List Char) := mkLines [
  "[NOT_A_GATING_TOKEN]",
  "  vsc __builtin_foo (vsc);",
  "    FOO xxx {}"]

/-- Erase the constant-restriction fields of a type descriptor; two
argument sequences with the same erasure have the same type shape in the
sense of the mangler. -/
def eraseRestr (t : typeinfo) : typeinfo :=
  { t with restr := .RES_NONE, val1 := 0, val2 := 0 }

/-- Two prototypes with the same type shape, differing in name and in the
restriction on the first argument. -/
def c4_p1 : prototype :=
  { rettype := { base := .BT_INT }, bifname := "__builtin_foo", nargs := 1,
    args := [{ base := .BT_INT, isconst := true, restr := .RES_BITS, val1 := 4 }] }

def c4_p2 : prototype :=
  { rettype := { base := .BT_INT }, bifname := "__builtin_bar", nargs := 1,
    args := [{ base := .BT_INT, isconst := true }] }

/-- A prototype line used to exercise the entry parsers. -/
def c5_lb : List Char := "int f (int);".data

/-- Overload parser state whose builtin registry holds `FOO` and whose next
line is the bare id `FOO`. -/
def c5_st : OvldSt := { lines := ["FOO".data], bif_rbt := ["FOO"] }

/-- Builtin parser state whose id registry already holds `DUP` and whose
next line names `DUP` again. -/
def c6_bif_st : BifSt := { lines := ["DUP xxx {}".data], bif_rbt := ["DUP"] }

/-- Overload parser state whose overload registry already holds `FOO`. -/
def c6_ovld_st : OvldSt :=
  { lines := ["FOO".data], bif_rbt := ["FOO"], ovld_rbt := ["FOO"] }

/-- C1.  `const int<4>` and `const int<0,15>` parse to the claimed `Bits`
and `Range` restrictions, but `const int{0,1}` is rejected — the `{x,y}`
branch never steps past the comma, so reading `y` fails — and
`const int[0,15]` never reaches the restriction parser — `match_type`
dispatches only on `<` and `{` — leaving the bracket unconsumed at
position 9, after which the surrounding prototype fails.  The code
contradicts its own grammar comment, which documents all four forms. -/
theorem C1_const_restriction_parsing :
    (match_type false ("const int<4>".data) 0).map
        (fun r => (r.1.restr, r.1.val1)) = some (.RES_BITS, 4) ∧
    (match_type false ("const int<0,15>".data) 0).map
        (fun r => (r.1.restr, r.1.val1, r.1.val2)) = some (.RES_RANGE, 0, 15) ∧
    match_type false ("const int{0,1}".data) 0 = none ∧
    (match_type false ("const int[0,15]".data) 0).map
        (fun r => (r.1.restr, r.2)) = some (.RES_NONE, 9) ∧
    parse_prototype ("int f (const int{0,1});".data) 0 = none ∧
    parse_prototype ("int f (const int[0,15]);".data) 0 = none := by
  decide

/-- C2.  On an overload file with two stanzas the run reports success, but
only one overload stanza is registered and both entries carry stanza
index 0: the entry loop of `parse_ovld_stanza` shadows its `result`
variable, so a line beginning with `[` does not end the stanza — the header
is silently dropped and its entries are tagged with the previous stanza.
The claim's loop back to the stanza-header state holds for the builtin file
but not for the overload file. -/
theorem C2_ovld_stanza_loopback :
    (main_ovld_state (rs6000_main c2_bif c2_ovld)).map
        (fun o => (o.ovld_stanzas.length, o.ovlds.map (fun e => e.stanza),
                   o.ovlds.map (fun e => e.idname)))
      = some (1, [0, 0], ["ABS_V16QI", "ABS_V8HI"]) := by
  decide

/-- C3.  A builtin file that ends between an entry's two lines fails with
the builtin parse-failure exit, as claimed; but an overload file that ends
between an entry's two lines makes `parse_ovld_entry` print `unexpected
EOF` and return the EOF code 0 instead of the failure code 6, so the run
terminates with success, keeping a half-parsed overload entry whose id is
never read. -/
theorem C3_eof_mid_entry :
    rs6000_main c3_bif_eof [] = .parseBifErr ∧
    (main_ovld_state (rs6000_main c2_bif c3_ovld_eof)).map
        (fun o => (o.ovlds.length, o.ovlds.map (fun e => e.idname)))
      = some (1, [""]) := by
  decide

/-- C7 counterexample.  A stanza header whose token belongs to no gating
vocabulary parses successfully: the header identifier is recorded verbatim
and the entry under it is accepted, so an unrecognized token does not cause
a parse failure as the claim states. -/
theorem C7_counterexample :
    (main_bif_state (rs6000_main c7_bif [])).map
        (fun b => (b.bif_stanzas, b.bifs.length))
      = some (["NOT_A_GATING_TOKEN"], 1) := by
  decide

/-- C8 counterexample.  A void pointer is accepted in argument position:
`match_type` with void disallowed still succeeds on `void *`, and a
prototype whose argument list is `(void *)` parses, contradicting the claim
that every form of void is a parse failure in argument position. -/
theorem C8_counterexample :
    (match_type false ("void *".data) 0).map
        (fun r => (r.1.isvoid, r.1.ispointer)) = some (true, true) ∧
    (parse_prototype ("void f (void *);".data) 0).isSome = true := by
  decide

/-- C10.  With at least one entry the init-table writers emit exactly one
initializer block per parsed entry in input order; but after parsing zero
entries the loops `for (i = 0; i <= curr_bif; i++)` still run once with the
counter at its initial 0, emitting one block that reads the uninitialized
slot 0 of each table instead of zero blocks. -/
theorem C10_table_blocks :
    (main_gen_out (rs6000_main [] [])).map
        (fun g => (g.bif_table_blocks.length, g.ovld_table_blocks.length))
      = some (1, 1) ∧
    (main_bif_state (rs6000_main [] [])).map (fun b => b.bifs.length)
      = some 0 ∧
    (main_ovld_state (rs6000_main [] [])).map (fun o => o.ovlds.length)
      = some 0 ∧
    (main_gen_out (rs6000_main c2_bif c2_ovld)).map
        (fun g => (g.bif_table_blocks, g.ovld_table_blocks))
      = some (["ABS_V16QI", "ABS_V8HI"], ["ABS_V16QI", "ABS_V8HI"]) := by
  decide

theorem arg_fragment_eraseRestr (t : typeinfo) :
    arg_fragment (eraseRestr t) = arg_fragment t := rfl

theorem ret_fragment_eraseRestr (t : typeinfo) :
    ret_fragment (eraseRestr t) = ret_fragment t := rfl

theorem mem_insertOrdered_self (x : String) (t : List String) :
    x ∈ insertOrdered x t := by
  induction t with
  | nil => simp [insertOrdered]
  | cons y ys ih =>
    by_cases h : strLt x y = true
    · simp [insertOrdered, h]
    · simp only [insertOrdered, h]
      simp [ih]

theorem count_insertOrdered_self (x : String) (t : List String) :
    (insertOrdered x t).count x = t.count x + 1 := by
  induction t with
  | nil => simp [insertOrdered]
  | cons y ys ih =>
    by_cases h : strLt x y = true
    · simp [insertOrdered, h, List.count_cons]
    · simp only [insertOrdered, h]
      simp [List.count_cons, ih]
      omega

/-- C4 (dedup correctness).  The mangled type-descriptor id depends only on
the return type and argument-type sequence with restrictions erased, so two
builtins with the same shape (names, ids and restrictions free) mangle to
the same id; and inserting both ids into an initially id-free registry
leaves exactly one entry for that shape. -/
theorem C4_dedup (p1 p2 : prototype)
    (h1 : eraseRestr p1.rettype = eraseRestr p2.rettype)
    (h2 : p1.nargs = p2.nargs)
    (h3 : p1.args.map eraseRestr = p2.args.map eraseRestr) :
    construct_fntype_id p1 = construct_fntype_id p2 ∧
    ∀ t : List String, construct_fntype_id p1 ∉ t →
      ((rbt_insert ((rbt_insert t (construct_fntype_id p1)).2)
          (construct_fntype_id p2)).2).count (construct_fntype_id p1) = 1 := by
  have hret : ret_fragment p1.rettype = ret_fragment p2.rettype := by
    rw [← ret_fragment_eraseRestr p1.rettype, h1, ret_fragment_eraseRestr]
  have hargs : p1.args.map arg_fragment = p2.args.map arg_fragment := by
    have e1 : p1.args.map arg_fragment = (p1.args.map eraseRestr).map arg_fragment := by
      simp [List.map_map, Function.comp, arg_fragment_eraseRestr]
    have e2 : p2.args.map arg_fragment = (p2.args.map eraseRestr).map arg_fragment := by
      simp [List.map_map, Function.comp, arg_fragment_eraseRestr]
    rw [e1, e2, h3]
  have hid : construct_fntype_id p1 = construct_fntype_id p2 := by
    unfold construct_fntype_id
    rw [hret, h2, hargs]
  refine ⟨hid, fun t ht => ?_⟩
  rw [← hid]
  have hfirst : rbt_insert t (construct_fntype_id p1)
      = (true, insertOrdered (construct_fntype_id p1) t) := by
    simp [rbt_insert, ht]
  rw [hfirst]
  have hmem := mem_insertOrdered_self (construct_fntype_id p1) t
  have hsecond : rbt_insert (insertOrdered (construct_fntype_id p1) t)
      (construct_fntype_id p1)
      = (false, insertOrdered (construct_fntype_id p1) t) := by
    simp [rbt_insert, hmem]
  rw [hsecond]
  rw [count_insertOrdered_self]
  simp [List.count_eq_zero.mpr ht]

/-- C4 witness: the two concrete prototypes of `c4_p1`/`c4_p2`, same shape
with different names and restrictions, mangle identically and leave one
registry entry. -/
theorem C4_dedup_witness :
    construct_fntype_id c4_p1 = construct_fntype_id c4_p2 ∧
    ((rbt_insert ((rbt_insert [] (construct_fntype_id c4_p1)).2)
        (construct_fntype_id c4_p2)).2).count (construct_fntype_id c4_p1) = 1 := by
  have h := C4_dedup c4_p1 c4_p2 (by decide) (by decide) (by decide)
  exact ⟨h.1, h.2 [] (by decide)⟩

/-- C9 (mangling edge cases).  A zero-argument prototype whose return type
is scalar `int` mangles to exactly `si_ftype_v`, and every pointer argument
contributes the generic pointer fragment `_pv`, independent of its declared
pointee type. -/
theorem C9_mangling_edge_cases :
    (∀ p : prototype,
       p.rettype.ispointer = false → p.rettype.isvoid = false →
       p.rettype.isopaq = false → p.rettype.isunsigned = false →
       p.rettype.isvector = false → p.rettype.base = .BT_INT →
       p.nargs = 0 →
       construct_fntype_id p = "si_ftype_v") ∧
    (∀ t : typeinfo, t.ispointer = true → arg_fragment t = "_pv") := by
  constructor
  · intro p h1 h2 h3 h4 h5 h6 h7
    simp [construct_fntype_id, ret_fragment, complete_base_type,
          h1, h2, h3, h4, h5, h6, h7]
  · intro t h
    simp [arg_fragment, h]

/-- C9 witness: a concrete zero-argument `int` prototype and a concrete
pointer-to-float argument. -/
theorem C9_mangling_witness :
    construct_fntype_id { rettype := { base := basetype.BT_INT }, bifname := "f" }
      = "si_ftype_v" ∧
    arg_fragment { ispointer := true, base := basetype.BT_FLOAT } = "_pv" :=
  ⟨C9_mangling_edge_cases.1 _ rfl rfl rfl rfl rfl rfl rfl,
   C9_mangling_edge_cases.2 _ rfl⟩

/-- C5 (referential integrity).  For an overload entry whose prototype line
parses and whose second line carries an identifier, the entry fails with the
overload parse-failure code when the identifier is absent from the builtin
id registry, and is accepted when it is present (and is itself new, with a
clean end of line).  In the pipeline the registry consulted here is the one
produced by the completed builtin pass (`rs6000_main` feeds `parse_bif`'s
final registry to `parse_ovld`). -/
theorem C5_ovld_referential_integrity
    (st : OvldSt) (lb lb2 : List Char) (rest : List (List Char))
    (pr : prototype × Nat) (id : String) (q : Nat)
    (hb : lineChar lb (consume_whitespace lb 0) ≠ '[')
    (hcap : st.ovlds.length < MAXOVLDS - 1)
    (hproto : parse_prototype lb (consume_whitespace lb 0) = some pr)
    (hadv : advance_line st.lines = some (lb2, rest))
    (hid : match_identifier lb2 (consume_whitespace lb2 0) = (some id, q)) :
    (rbt_find st.bif_rbt id = false → parse_ovld_entry lb st = .err) ∧
    (rbt_find st.bif_rbt id = true → id ∉ st.ovld_rbt →
     lineChar lb2 (consume_whitespace lb2 q) = '\n' →
     (parse_ovld_entry lb st).isOk = true) := by
  obtain ⟨proto, pp⟩ := pr
  constructor
  · intro hfind
    simp only [parse_ovld_entry, hb, if_false, hproto, hadv, hid, hfind]
    simp [Nat.not_le.mpr hcap]
  · intro hfind hdup hnl
    simp only [parse_ovld_entry, hb, if_false, hproto, hadv, hid, hfind]
    simp [Nat.not_le.mpr hcap, rbt_insert, hdup, hnl, hfind, OvldEntryRes.isOk]

/-- C5 witness: a concrete overload entry whose id `FOO` is present in the
builtin registry is accepted. -/
theorem C5_ovld_referential_integrity_witness :
    (parse_ovld_entry c5_lb c5_st).isOk = true :=
  (C5_ovld_referential_integrity c5_st c5_lb ("FOO".data) []
      ({ rettype := { base := .BT_INT }, bifname := "f", nargs := 1,
         args := [{ base := .BT_INT }] }, 12) "FOO" 3
      (by decide) (by decide) (by decide) (by decide) (by decide)).2
    (by decide) (by decide) (by decide)

/-- C6 (duplicate detection).  A builtin entry whose id-line identifier is
already registered fails with the builtin parse-failure code; an overload
entry whose id is already in the overload registry fails with the overload
parse-failure code; and the registries always accept a string not yet
present. -/
theorem C6_duplicate_ids :
    (∀ (st : BifSt) (lb lb2 : List Char) (rest : List (List Char))
       (kp : fnkinds × prototype) (id : String) (q : Nat),
       lineChar lb (consume_whitespace lb 0) ≠ '[' →
       st.bifs.length < MAXBIFS - 1 →
       parse_bif_line1 lb (consume_whitespace lb 0) = some kp →
       advance_line st.lines = some (lb2, rest) →
       match_identifier lb2 (consume_whitespace lb2 0) = (some id, q) →
       id ∈ st.bif_rbt →
       parse_bif_entry lb st = .err) ∧
    (∀ (st : OvldSt) (lb lb2 : List Char) (rest : List (List Char))
       (pr : prototype × Nat) (id : String) (q : Nat),
       lineChar lb (consume_whitespace lb 0) ≠ '[' →
       st.ovlds.length < MAXOVLDS - 1 →
       parse_prototype lb (consume_whitespace lb 0) = some pr →
       advance_line st.lines = some (lb2, rest) →
       match_identifier lb2 (consume_whitespace lb2 0) = (some id, q) →
       rbt_find st.bif_rbt id = true →
       id ∈ st.ovld_rbt →
       parse_ovld_entry lb st = .err) ∧
    (∀ (t : List String) (x : String), x ∉ t → (rbt_insert t x).1 = true) := by
  refine ⟨?_, ?_, ?_⟩
  · intro st lb lb2 rest kp id q hb hcap hl1 hadv hid hdup
    obtain ⟨kind, proto⟩ := kp
    simp only [parse_bif_entry, hb, if_false, hl1, hadv, hid]
    simp [Nat.not_le.mpr hcap, rbt_insert, hdup]
  · intro st lb lb2 rest pr id q hb hcap hproto hadv hid hfind hdup
    obtain ⟨proto, pp⟩ := pr
    simp only [parse_ovld_entry, hb, if_false, hproto, hadv, hid, hfind]
    simp [Nat.not_le.mpr hcap, rbt_insert, hdup]
  · intro t x hx
    simp [rbt_insert, hx]

/-- C6 witness: a concrete duplicate builtin id `DUP`, a concrete duplicate
overload id `FOO`, and a fresh insertion that succeeds. -/
theorem C6_duplicate_ids_witness :
    parse_bif_entry c5_lb c6_bif_st = .err ∧
    parse_ovld_entry c5_lb c6_ovld_st = .err ∧
    (rbt_insert [] "A").1 = true :=
  ⟨C6_duplicate_ids.1 c6_bif_st c5_lb ("DUP xxx {}".data) []
      (.FNK_NONE,
       { rettype := { base := .BT_INT }, bifname := "f", nargs := 1,
         args := [{ base := .BT_INT }] }) "DUP" 3
      (by decide) (by decide) (by decide) (by decide) (by decide) (by decide),
   C6_duplicate_ids.2.1 c6_ovld_st c5_lb ("FOO".data) []
      ({ rettype := { base := .BT_INT }, bifname := "f", nargs := 1,
         args := [{ base := .BT_INT }] }, 12) "FOO" 3
      (by decide) (by decide) (by decide) (by decide) (by decide) (by decide) (by decide),
   C6_duplicate_ids.2.2 [] "A" (by decide)⟩

theorem drop_append_len (pre X : List Char) (k : Nat) :
    (pre ++ X).drop (pre.length + k) = X.drop k := by
  induction pre with
  | nil => simp
  | cons a pre ih => simp [Nat.succ_add, ih]

theorem lineChar_append_len (pre X : List Char) (k : Nat) :
    lineChar (pre ++ X) (pre.length + k) = lineChar X k := by
  simp [lineChar, drop_append_len]

theorem consume_whitespace_append_len (pre X : List Char) (k : Nat) :
    consume_whitespace (pre ++ X) (pre.length + k)
      = pre.length + consume_whitespace X k := by
  simp [consume_whitespace, drop_append_len]
  omega

theorem identRun_append_len (pre X : List Char) (k : Nat) :
    identRun (pre ++ X) (pre.length + k) = identRun X k := by
  simp [identRun, drop_append_len]

theorem match_identifier_append_len (pre X : List Char) (k : Nat) :
    match_identifier (pre ++ X) (pre.length + k)
      = ((match_identifier X k).1, pre.length + (match_identifier X k).2) := by
  simp only [match_identifier, identRun_append_len]
  split
  · rfl
  · simp [Nat.add_assoc]

theorem identRunAux_leading (cs X : List Char)
    (h : ∀ c ∈ cs, isIdentChar c = true)
    (h2 : isIdentChar (lineChar X 0) = false) :
    identRunAux (cs ++ X) = cs := by
  induction cs with
  | nil =>
    cases X with
    | nil => rfl
    | cons c X2 =>
      have hc : isIdentChar c = false := h2
      simp [identRunAux, hc]
  | cons c cs ih =>
    have hc : isIdentChar c = true := h c (by simp)
    simp [identRunAux, hc, ih (fun d hd => h d (by simp [hd]))]

/-- C7 (amended).  The builtin stanza header accepts any identifier as its
token, recording it verbatim: there is no closed gating vocabulary and no
lookup that could fail.  A header `[<identifier>]` always parses, and a
parse failure arises only from malformed header syntax. -/
theorem C7_amended_any_identifier (cs : List Char) (h1 : cs ≠ [])
    (h2 : ∀ c ∈ cs, isIdentChar c = true) :
    parse_bif_stanza ('[' :: (cs ++ [']'])) { lines := [] } =
      .eof { lines := [], bif_stanzas := [String.mk cs] } := by
  set lb := '[' :: (cs ++ [']']) with hlb
  have c1 : cIsSpace '[' = false := by decide
  have e0 : consume_whitespace lb 0 = 0 := by
    simp [hlb, consume_whitespace, wsCount, c1]
  have e1 : lineChar lb 0 = '[' := rfl
  have erun : identRun lb 1 = cs := by
    show identRunAux (cs ++ [']']) = cs
    exact identRunAux_leading cs [']'] h2 (by decide)
  have e3 : match_identifier lb 1 = (some (String.mk cs), 1 + cs.length) := by
    simp only [match_identifier, erun]
    simp [h1, Nat.add_comm]
  have e4 : lineChar lb (1 + cs.length) = ']' := by
    have hd : lb.drop (1 + cs.length) = [']'] := by
      rw [Nat.add_comm]
      show (cs ++ [']']).drop cs.length = [']']
      exact List.drop_left cs [']']
    simp [lineChar, hd]
  have e5 : lb.drop (1 + cs.length + 1) = [] := by
    apply List.drop_eq_nil_of_le
    simp [hlb]
    omega
  have e6 : consume_whitespace lb (1 + cs.length + 1) = 1 + cs.length + 1 := by
    simp [consume_whitespace, e5, wsCount]
  have e7 : lineChar lb (1 + cs.length + 1) = '\n' := by
    simp [lineChar, e5]
  simp only [parse_bif_stanza, e0, e1, e3, e4, e6, e7]
  simp [MAXBIFSTANZAS, bif_stanza_loop, advance_line]

/-- C7 amended witness: the concrete header `[P10]` over an empty rest of
file parses and records the token verbatim. -/
theorem C7_amended_any_identifier_witness :
    parse_bif_stanza ('[' :: ("P10".data ++ [']'])) { lines := [] } =
      .eof { lines := [], bif_stanzas := ["P10"] } :=
  C7_amended_any_identifier "P10".data (by decide) (by decide)

/-- C8 (amended).  At any position in any line, a void pointer is accepted
as a type both where void is allowed and where it is not — `match_type`
returns the void-pointer descriptor without consulting `voidok` — while
bare `void` is accepted only where void is allowed (return position) and is
a parse failure in argument position. -/
theorem C8_amended_void_handling (pre rest : List Char) :
    (match_type false (pre ++ ('v' :: 'o' :: 'i' :: 'd' :: ' ' :: '*' ::rest)) pre.length
       = some ({ isvoid := true, ispointer := true }, pre.length + 6)) ∧
    (match_type false (pre ++ ('v' :: 'o' :: 'i' :: 'd' :: ')' ::rest)) pre.length
       = none) ∧
    (match_type true (pre ++ ('v' :: 'o' :: 'i' :: 'd' :: ')' ::rest)) pre.length
       = some ({ isvoid := true }, pre.length + 4)) ∧
    (match_type true (pre ++ ('v' :: 'o' :: 'i' :: 'd' :: ' ' :: '*' ::rest)) pre.length
       = some ({ isvoid := true, ispointer := true }, pre.length + 6)) := by
  set Xs : List Char := 'v' :: 'o' :: 'i' :: 'd' :: ' ' :: '*' ::rest with hXs
  set Xp : List Char := 'v' :: 'o' :: 'i' :: 'd' :: ')' ::rest with hXp
  have hs0 : consume_whitespace (pre ++ Xs) pre.length = pre.length := by
    have h := consume_whitespace_append_len pre Xs 0
    rw [Nat.add_zero] at h
    rw [h]
    have h2 : consume_whitespace Xs 0 = 0 := by
      simp +decide [hXs, consume_whitespace, wsCount]
    rw [h2]
    omega
  have hp0 : consume_whitespace (pre ++ Xp) pre.length = pre.length := by
    have h := consume_whitespace_append_len pre Xp 0
    rw [Nat.add_zero] at h
    rw [h]
    have h2 : consume_whitespace Xp 0 = 0 := by
      simp +decide [hXp, consume_whitespace, wsCount]
    rw [h2]
    omega
  have hmXs : match_identifier Xs 0 = (some "void", 4) := by
    simp only [match_identifier, identRun]
    rw [show Xs.drop 0 = ['v','o','i','d'] ++ (' ' :: '*' ::rest) from rfl]
    rw [identRunAux_leading ['v','o','i','d'] (' ' :: '*' ::rest) (by decide)
      (by decide : isIdentChar ' ' = false)]
    simp
  have hmXp : match_identifier Xp 0 = (some "void", 4) := by
    simp only [match_identifier, identRun]
    rw [show Xp.drop 0 = ['v','o','i','d'] ++ (')' ::rest) from rfl]
    rw [identRunAux_leading ['v','o','i','d'] (')' ::rest) (by decide)
      (by decide : isIdentChar ')' = false)]
    simp
  have hams : match_identifier (pre ++ Xs) pre.length = (some "void", pre.length + 4) := by
    have h := match_identifier_append_len pre Xs 0
    rw [Nat.add_zero] at h
    rw [h, hmXs]
  have hamp : match_identifier (pre ++ Xp) pre.length = (some "void", pre.length + 4) := by
    have h := match_identifier_append_len pre Xp 0
    rw [Nat.add_zero] at h
    rw [h, hmXp]
  have hs1 : consume_whitespace (pre ++ Xs) (pre.length + 4) = pre.length + 5 := by
    rw [consume_whitespace_append_len pre Xs 4]
    have h2 : consume_whitespace Xs 4 = 5 := by
      simp +decide [hXs, consume_whitespace, wsCount]
    rw [h2]
  have hp1 : consume_whitespace (pre ++ Xp) (pre.length + 4) = pre.length + 4 := by
    rw [consume_whitespace_append_len pre Xp 4]
    have h2 : consume_whitespace Xp 4 = 4 := by
      simp +decide [hXp, consume_whitespace, wsCount]
    rw [h2]
  have hs2 : lineChar (pre ++ Xs) (pre.length + 5) = '*' := by
    rw [lineChar_append_len pre Xs 5, hXs]
    rfl
  have hp2 : lineChar (pre ++ Xp) (pre.length + 4) = ')' := by
    rw [lineChar_append_len pre Xp 4, hXp]
    rfl
  refine ⟨?_, ?_, ?_, ?_⟩
  · simp only [match_type, hs0, hams, hs1, hs2]
    simp +decide
  · simp only [match_type, hp0, hamp, hp1, hp2]
    simp +decide
  · simp only [match_type, hp0, hamp, hp1, hp2]
    simp +decide
  · simp only [match_type, hs0, hams, hs1, hs2]
    simp +decide

/-- C8 amended witness: the concrete instances at the start of a line. -/
theorem C8_amended_void_handling_witness :
    match_type false ([] ++ ('v' :: 'o' :: 'i' :: 'd' :: ' ' :: '*' ::([] : List Char)))
        (List.length ([] : List Char))
      = some ({ isvoid := true, ispointer := true }, List.length ([] : List Char) + 6) ∧
    match_type false ([] ++ ('v' :: 'o' :: 'i' :: 'd' :: ')' ::([] : List Char)))
        (List.length ([] : List Char)) = none :=
  ⟨(C8_amended_void_handling [] []).1, (C8_amended_void_handling [] []).2.1⟩
